import Mathlib

/-!
Verification of the MIPROv2Plus optimizer orchestration
(dspy/teleprompt/mipro_optimizer_v2_plus.py) and the Langfuse tracing
callback (testing/tracing.py) against the repository's specification.

The optimizer's helper methods (dataset setup, run-mode pass-through,
confirmation hook, instruction proposer, search driver) live in the base
class outside this excerpt; they are modelled from the spec and are
marked as such in their doc comments.  The orchestration itself —
seeding, demo-limit overrides, the minibatch-size check, the permission
gate, demo discarding and the final optimization call — follows the
source line by line.
-/

set_option linter.unusedVariables false

namespace DSpy

/-- Scores returned by the metric are modelled as integers. -/
abbrev Score := Int

/-- Validation and training examples are modelled as opaque identifiers. -/
abbrev Example := Nat

/-- One prompted step of a program: a name, the bound instruction text, and
the bound demonstration set. -/
structure Step where
  name : String
  instruction : String
  demos : List Example
deriving Repr, DecidableEq

/-- A program is an ordered collection of steps. -/
structure Program where
  steps : List Step
deriving Repr, DecidableEq

/-- The mutable optimizer instance state read and written by compile: the
default seed and the per-instance demo limits, kept on self in the source. -/
structure MIPROInstance where
  seed : Int
  max_bootstrapped_demos : Nat
  max_labeled_demos : Nat
deriving Repr, DecidableEq

/-- Line 55 of compile: seed = seed or self.seed.  A Python or treats both
None and 0 as falsy, so either falls back to the instance default. -/
def effectiveSeed (seed : Option Int) (selfSeed : Int) : Int :=
  match seed with
  | none => selfSeed
  | some s => if s = 0 then selfSeed else s

/-- Modelled from the spec: _set_random_seeds (line 56) derives all of the
run's randomness from the single seed; the generator pool is modelled as one
linear congruential state. -/
def setRandomSeeds (seed : Int) : Nat :=
  seed.natAbs % 2147483648

/-- Modelled from the spec: one deterministic pseudo-random step, used by
assignment sampling and minibatch drawing. -/
def lcg (g : Nat) : Nat :=
  (1103515245 * g + 12345) % 2147483648

/-- Modelled from the spec: _set_and_validate_datasets (§4.1) keeps a
caller-supplied valset, otherwise splits the trainset 80/20; it fails when
the validation partition would be empty. -/
def setAndValidateDatasets (trainset : List Example) (valset : Option (List Example)) :
    Except String (List Example × List Example) :=
  match valset with
  | some v =>
      if v.isEmpty then Except.error "Validation set must be nonempty."
      else Except.ok (trainset, v)
  | none =>
      let cut := trainset.length * 80 / 100
      let v := trainset.drop cut
      if v.isEmpty then Except.error "Validation set must be nonempty."
      else Except.ok (trainset.take cut, v)

/-- Lines 79-81: the configuration error message, naming the valset size. -/
def minibatchSizeError (valsetSize : Nat) : String :=
  "Minibatch size cannot exceed the size of the valset. Valset size: "
    ++ toString valsetSize ++ "."

/-- Modelled from the spec: draw one categorical choice among n candidates
from the generator state. -/
def sampleCat (g : Nat) (n : Nat) : Nat × Nat :=
  let g1 := lcg g
  (g1 % max n 1, g1)

/-- Modelled from the spec: sample an Assignment — one
(instruction index, demo-set index) pair per step — from the per-step
category sizes, threading the generator state. -/
def sampleAssignment : Nat → List (Nat × Nat) → List (Nat × Nat) × Nat
  | g, [] => ([], g)
  | g, d :: rest =>
      let c1 := sampleCat g d.1
      let c2 := sampleCat c1.2 d.2
      let t := sampleAssignment c2.2 rest
      ((c1.1, c2.1) :: t.1, t.2)

/-- Modelled from the spec: draw a fresh minibatch of the given size from
the valset, threading the generator state. -/
def createMinibatch (g : Nat) (size : Nat) (valset : List Example) :
    List Example × Nat :=
  let g1 := lcg g
  let start := g1 % (valset.length + 1)
  ((valset.drop start ++ valset.take start).take size, g1)

/-- The per-step category sizes of the search space: one instruction choice
per proposed candidate and, absent demo candidates, a single (empty) demo
set per step. -/
def demoDims (instr : List (List String)) (demos : Option (List (List (List Example)))) :
    List (Nat × Nat) :=
  match demos with
  | none => instr.map (fun l => (l.length, 1))
  | some ds => (instr.zip ds).map (fun p => (p.1.length, p.2.length))

/-- Modelled from the spec: the Program Configurator (§4.3) — bind, for every
step, the instruction text and demo set selected by the assignment, producing
an independent configured program. -/
def configureProgram (base : Program) (instr : List (List String))
    (demos : Option (List (List (List Example)))) (a : List (Nat × Nat)) : Program :=
  ⟨(List.range base.steps.length).map fun i =>
      let st := base.steps.getD i ⟨"", "", []⟩
      let ci := a.getD i (0, 0)
      let instrs := instr.getD i []
      let demoSets :=
        match demos with
        | none => [[]]
        | some ds => ds.getD i [[]]
      { st with
          instruction := instrs.getD ci.1 st.instruction
          demos := demoSets.getD ci.2 [] }⟩

/-- One sampled Assignment together with its observed score and whether it
was scored on the full valset. -/
structure Trial where
  idx : Nat
  assignment : List (Nat × Nat)
  score : Score
  fullEval : Bool
deriving Repr, DecidableEq

/-- The record produced by the search driver: the best program and its
reconciled full-set score, the trial history, the best full-set score after
each trial (baseline first), and the number of evaluator invocations. -/
structure DriverResult where
  best : Program
  bestScore : Score
  trials : List Trial
  bestScores : List Score
  evalCount : Nat
deriving Repr, DecidableEq

/-- The running state of the trial loop. -/
structure LoopState where
  g : Nat
  best : Program
  bestScore : Score
  trials : List Trial
  bestScores : List Score
  evalCount : Nat
deriving Repr

/-- Modelled from the spec (§4.5 step 2): a trial is scored on the full
valset when minibatching is off, on every minibatch_full_eval_steps-th
trial, and on the final trial. -/
def fullEvalAt (minibatch : Bool) (fullSteps numTrials t : Nat) : Bool :=
  !minibatch || t % fullSteps == 0 || t == numTrials

/-- Record one finished trial: advance the generator, install the (possibly
updated) Best Program and best score, and append the trial and the running
best score to the histories. -/
def pushTrial (s : LoopState) (g2 : Nat) (bp : Program) (bs : Score) (tr : Trial) :
    LoopState :=
  ⟨g2, bp, bs, s.trials ++ [tr], s.bestScores ++ [bs], s.evalCount + 1⟩

/-- Modelled from the spec (§4.5): one trial — sample an Assignment,
configure the candidate, score it on a minibatch or the full valset, record
the trial, and on full evaluations reconcile the Best Program, updating it
only when the full-set score strictly improves. -/
def trialStep (ev : Program → List Example → Score) (base : Program)
    (instr : List (List String)) (demos : Option (List (List (List Example))))
    (valset : List Example) (minibatch : Bool) (mbSize fullSteps numTrials : Nat)
    (s : LoopState) (t : Nat) : LoopState :=
  let dims := demoDims instr demos
  let samp := sampleAssignment s.g dims
  let prog := configureProgram base instr demos samp.1
  if fullEvalAt minibatch fullSteps numTrials t = true then
    let sc := ev prog valset
    pushTrial s samp.2 (if s.bestScore < sc then prog else s.best)
      (if s.bestScore < sc then sc else s.bestScore) ⟨t, samp.1, sc, true⟩
  else
    let mb := createMinibatch samp.2 mbSize valset
    pushTrial s mb.2 s.best s.bestScore ⟨t, samp.1, ev prog mb.1, false⟩

/-- The initial loop state: the deep-copied base program, scored once on the
full valset as the baseline Best Program. -/
def initLoopState (g : Nat) (base : Program) (baseline : Score) : LoopState :=
  ⟨g, base, baseline, [], [baseline], 1⟩

/-- The trial loop: numTrials sequential trials from the initial state. -/
def runLoop (ev : Program → List Example → Score) (base : Program)
    (instr : List (List String)) (demos : Option (List (List (List Example))))
    (valset : List Example) (minibatch : Bool) (mbSize fullSteps numTrials g : Nat)
    (baseline : Score) : LoopState :=
  (List.range numTrials).foldl
    (fun s i => trialStep ev base instr demos valset minibatch mbSize fullSteps numTrials s (i + 1))
    (initLoopState g base baseline)

/-- Modelled from the spec: _optimize_prompt_parameters (§4.5) — the budgeted
trial-based search driver, returning the reconciled Best Program. -/
def runTrials (ev : Program → List Example → Score) (base : Program)
    (instr : List (List String)) (demos : Option (List (List (List Example))))
    (valset : List Example) (numTrials : Nat) (minibatch : Bool)
    (mbSize fullSteps g : Nat) : DriverResult :=
  let fin := runLoop ev base instr demos valset minibatch mbSize fullSteps numTrials g
    (ev base valset)
  ⟨fin.best, fin.bestScore, fin.trials, fin.bestScores, fin.evalCount⟩

/-- The observable outcome of one compile call: the returned program or the
raised error, the instance state after the call, the number of evaluator
invocations, the demo-candidate pool handed to the prompt-parameter
optimization step (when reached), and the search-driver record (when run). -/
structure CompileOutput where
  result : Except String Program
  inst : MIPROInstance
  evalCount : Nat
  demosToOptimizer : Option (Option (List (List (List Example))))
  driver : Option DriverResult
deriving Repr

/-- MIPROv2Plus.compile (lines 33-148), as a function of the instance state,
the confirmation-hook outcome, the proposer output and the evaluator.  The
demo-candidate pool is hardcoded to None in the source (line 111, the
bootstrap step is commented out); deepcopy (line 98) is value copying here,
with aliasing treated separately in the heap model below.  Teacher and the
proposer flags are absorbed into the proposer oracle. -/
def compile (inst : MIPROInstance) (conf : Bool) (proposed : List (List String))
    (ev : Program → List Example → Score) (student : Program)
    (trainset : List Example) (valset : Option (List Example)) (numTrials : Nat)
    (maxBootstrappedDemos maxLabeledDemos : Option Nat) (seed : Option Int)
    (minibatch : Bool) (minibatchSize minibatchFullEvalSteps : Nat)
    (requiresPermissionToRun : Bool) : CompileOutput :=
  let seedVal := effectiveSeed seed inst.seed
  let g := setRandomSeeds seedVal
  let inst2 : MIPROInstance :=
    { inst with
        max_bootstrapped_demos := maxBootstrappedDemos.getD inst.max_bootstrapped_demos
        max_labeled_demos := maxLabeledDemos.getD inst.max_labeled_demos }
  match setAndValidateDatasets trainset valset with
  | Except.error e => ⟨Except.error e, inst2, 0, none, none⟩
  | Except.ok tv =>
      if minibatch = true ∧ tv.2.length < minibatchSize then
        ⟨Except.error (minibatchSizeError tv.2.length), inst2, 0, none, none⟩
      else if requiresPermissionToRun = true ∧ conf = false then
        ⟨Except.ok student, inst2, 0, none, none⟩
      else
        let demoCandidates : Option (List (List (List Example))) := none
        let demoCandidates2 :=
          if inst2.max_bootstrapped_demos = 0 ∧ inst2.max_labeled_demos = 0 then none
          else demoCandidates
        let dr := runTrials ev student proposed demoCandidates2 tv.2 numTrials minibatch
          minibatchSize minibatchFullEvalSteps g
        ⟨Except.ok dr.best, inst2, dr.evalCount, some demoCandidates2, some dr⟩

/-- The monotone-reconciliation shape of a driver record: the per-trial best
full-set scores form a non-decreasing chain that starts at the baseline and
ends at the returned best score. -/
def MonotoneRun (baseline : Score) (dr : DriverResult) : Prop :=
  List.Chain' (fun x y => x ≤ y) dr.bestScores
    ∧ dr.bestScores.head? = some baseline
    ∧ dr.bestScores.getLast? = some dr.bestScore
    ∧ baseline ≤ dr.bestScore

/-- The loop invariant behind reconciliation: the recorded best scores form
a non-decreasing chain from the baseline to the current best score. -/
def BSInv (baseline : Score) (s : LoopState) : Prop :=
  List.Chain' (fun x y => x ≤ y) s.bestScores
    ∧ s.bestScores.head? = some baseline
    ∧ s.bestScores.getLast? = some s.bestScore
    ∧ baseline ≤ s.bestScore

/-- Every recorded trial's assignment picks demo-set index 0 at every step. -/
def TrialsZero (s : LoopState) : Prop :=
  ∀ tr ∈ s.trials, ∀ q ∈ tr.assignment, q.2 = 0

/- ------------------------------------------------------------------ -/
/- Heap model of program references, for the mutation claim.           -/
/- ------------------------------------------------------------------ -/

/-- Association-list lookup over program references. -/
def alookup (i : Nat) : List (Nat × Program) → Option Program
  | [] => none
  | (j, p) :: rest => if i = j then some p else alookup i rest

/-- Overwrite every entry bound to the given reference. -/
def aupdate (i : Nat) (p : Program) : List (Nat × Program) → List (Nat × Program)
  | [] => []
  | (j, q) :: rest =>
      if i = j then (j, p) :: aupdate i p rest else (j, q) :: aupdate i p rest

/-- A heap of program references, making aliasing and in-place mutation
explicit. -/
structure PStore where
  progs : List (Nat × Program)
  nextId : Nat

/-- Dereference a program. -/
def PStore.lookup (st : PStore) (i : Nat) : Option Program :=
  alookup i st.progs

/-- Every allocated reference lies below the allocation counter. -/
def PStore.WF (st : PStore) : Prop :=
  ∀ q ∈ st.progs, q.1 < st.nextId

/-- student.deepcopy() (line 98): allocate a fresh reference holding a copy
of the referenced program. -/
def deepcopy (st : PStore) (i : Nat) : PStore × Nat :=
  match st.lookup i with
  | some p => (⟨(st.nextId, p) :: st.progs, st.nextId + 1⟩, st.nextId)
  | none => (st, st.nextId)

/-- Modelled from the spec: the Program Configurator (§4.3) binding an
assignment onto the referenced program in place; the underlying pure binding
is configureProgram. -/
def configureInPlace (st : PStore) (i : Nat) (instr : List (List String))
    (demos : Option (List (List (List Example)))) (a : List (Nat × Nat)) : PStore :=
  match st.lookup i with
  | some p => ⟨aupdate i (configureProgram p instr demos a) st.progs, st.nextId⟩
  | none => st

/-- The configuration side of compile on the heap: deep-copy the student
(line 98), then configure the copy once per trial assignment. -/
def compileOnStore (st : PStore) (studentId : Nat) (instr : List (List String))
    (demos : Option (List (List (List Example)))) (assignments : List (List (Nat × Nat))) :
    PStore × Nat :=
  let dc := deepcopy st studentId
  (assignments.foldl (fun s a => configureInPlace s dc.2 instr demos a) dc.1, dc.2)

/- ------------------------------------------------------------------ -/
/- The Langfuse callback (testing/tracing.py).                         -/
/- ------------------------------------------------------------------ -/

/-- A recorded Langfuse trace: its id, name and input payload. -/
structure TraceRec where
  id : String
  name : String
  input : String
deriving Repr, DecidableEq

/-- The parent under which a nested observation is created: a trace or
another observation. -/
inductive Parent
  | trace (id : String)
  | obs (id : String)
deriving Repr, DecidableEq

/-- A recorded Langfuse observation (span or generation). -/
structure ObsRec where
  id : String
  name : String
  parent : Parent
  isGeneration : Bool
deriving Repr, DecidableEq

/-- The Langfuse API calls the callback issues. -/
inductive Action
  | createTrace (callId name : String)
  | createSpan (parent : Parent) (id : String)
  | createGeneration (parent : Parent) (id : String)
  | endObs (id : String) (output : Option String) (level : String)
      (statusMessage : Option String)
  | updateTrace (callId : String) (output : Option String)
deriving Repr, DecidableEq

/-- Association-list lookup keyed by call id (dict.get). -/
def slookup {α : Type} (k : String) : List (String × α) → Option α
  | [] => none
  | (k2, v) :: rest => if k = k2 then some v else slookup k rest

/-- Remove the entry with the given key (dict.pop). -/
def removeKey {α : Type} (k : String) : List (String × α) → List (String × α)
  | [] => []
  | (k2, v) :: rest =>
      if k = k2 then removeKey k rest else (k2, v) :: removeKey k rest

/-- The callback state: the traces and observations dictionaries keyed by
call id (lines 34-35). -/
structure CBState where
  traces : List (String × TraceRec)
  observations : List (String × ObsRec)
deriving Repr, DecidableEq

/-- _get_observation_status (lines 37-44): level ERROR with the exception
text when an exception is present, otherwise DEFAULT and no status message. -/
def getObservationStatus (exception : Option String) : String × Option String :=
  match exception with
  | some e => ("ERROR", some e)
  | none => ("DEFAULT", none)

/-- parent = parent_observation or parent_trace (lines 74 and 149): the
observation is preferred. -/
def resolveParent (parentObs : Option ObsRec) (parentTrace : Option TraceRec) :
    Option Parent :=
  match parentObs with
  | some o => some (Parent.obs o.id)
  | none =>
      match parentTrace with
      | some t => some (Parent.trace t.id)
      | none => none

/-- on_module_start (lines 46-80): resolve the ambient parent; create a root
trace keyed by call_id when none is found, otherwise a span under the
preferred parent. -/
def onModuleStart (s : CBState) (ambient : Option String) (callId name input : String) :
    CBState × List Action :=
  let parentTrace := ambient.bind (fun a => slookup a s.traces)
  let parentObs := ambient.bind (fun a => slookup a s.observations)
  match resolveParent parentObs parentTrace with
  | none =>
      ({ s with traces := (callId, ⟨callId, name, input⟩) :: s.traces },
       [Action.createTrace callId name])
  | some parent =>
      ({ s with observations :=
            (callId, ⟨"span-" ++ callId, name, parent, false⟩) :: s.observations },
       [Action.createSpan parent ("span-" ++ callId)])

/-- on_lm_start (lines 121-156): like on_module_start but always creating a
generation; at the root, a fresh trace keyed by call_id is created first and
the generation is nested under it. -/
def onLMStart (s : CBState) (ambient : Option String) (callId name input : String) :
    CBState × List Action :=
  let parentTrace := ambient.bind (fun a => slookup a s.traces)
  let parentObs := ambient.bind (fun a => slookup a s.observations)
  match resolveParent parentObs parentTrace with
  | none =>
      ({ s with
          traces := (callId, ⟨callId, name, input⟩) :: s.traces
          observations :=
            (callId, ⟨"generation-" ++ callId, name, Parent.trace callId, true⟩)
              :: s.observations },
       [Action.createTrace callId name,
        Action.createGeneration (Parent.trace callId) ("generation-" ++ callId)])
  | some parent =>
      ({ s with observations :=
            (callId, ⟨"generation-" ++ callId, name, parent, true⟩) :: s.observations },
       [Action.createGeneration parent ("generation-" ++ callId)])

/-- Outputs of a module forward call: a Prediction carrying a _store, or a
plain value. -/
inductive ModuleOutput
  | withStore (storeVal : String)
  | plain (v : Option String)
deriving Repr, DecidableEq

/-- Lines 99-102: unwrap the _store when present. -/
def unwrapOutput : ModuleOutput → Option String
  | ModuleOutput.withStore v => some v
  | ModuleOutput.plain v => v

/-- on_module_end (lines 83-117): a call id with a recorded observation ends
that observation with the level and status message; otherwise the matching
root trace is updated with the output only.  A call id recorded in neither
dictionary raises KeyError, modelled as none. -/
def onModuleEnd (s : CBState) (callId : String) (outputs : ModuleOutput)
    (exception : Option String) : Option (CBState × List Action) :=
  let st := getObservationStatus exception
  let output := unwrapOutput outputs
  match slookup callId s.observations with
  | some o =>
      some ({ s with observations := removeKey callId s.observations },
        [Action.endObs o.id output st.1 st.2])
  | none =>
      match slookup callId s.traces with
      | some _ =>
          some ({ s with traces := removeKey callId s.traces },
            [Action.updateTrace callId output])
      | none => none

/-- on_lm_end (lines 158-184): when the call id owns a root trace it is
updated with the outputs, then the generation observation is popped
unconditionally and ended with the level and status message. -/
def onLMEnd (s : CBState) (callId : String) (outputs : Option String)
    (exception : Option String) : Option (CBState × List Action) :=
  let st := getObservationStatus exception
  let s1 : CBState :=
    match slookup callId s.traces with
    | some _ => { s with traces := removeKey callId s.traces }
    | none => s
  let acts1 : List Action :=
    match slookup callId s.traces with
    | some _ => [Action.updateTrace callId outputs]
    | none => []
  match slookup callId s1.observations with
  | some o =>
      some ({ s1 with observations := removeKey callId s1.observations },
        acts1 ++ [Action.endObs o.id outputs st.1 st.2])
  | none => none

/-- The final action an end handler emitted, when it succeeded. -/
def lastAction (r : Option (CBState × List Action)) : Option Action :=
  r.bind (fun p => p.2.getLast?)

/- ------------------------------------------------------------------ -/
/- Concrete fixtures for witnesses and counterexamples.                -/
/- ------------------------------------------------------------------ -/

/-- A two-step example program used in concrete checks. -/
def sampleStudent : Program :=
  ⟨[⟨"step0", "base instruction", []⟩, ⟨"step1", "other instruction", []⟩]⟩

/-- A default optimizer instance for concrete checks. -/
def defaultInst : MIPROInstance := ⟨9, 4, 4⟩

/-- A constant evaluator oracle for concrete checks. -/
def constEval : Program → List Example → Score := fun _ _ => 0

/-- A one-reference heap holding the sample student, for concrete checks. -/
def sampleStore : PStore := ⟨[(0, sampleStudent)], 1⟩

/-- A callback state holding one root trace and one nested observation. -/
def cbSample : CBState :=
  ⟨[("root", ⟨"root", "Top", "x"⟩)],
   [("c1", ⟨"span-c1", "Inner", Parent.trace "root", false⟩)]⟩

/- ------------------------------------------------------------------ -/
/- Helper lemmas.                                                      -/
/- ------------------------------------------------------------------ -/

/-- An invariant preserved by every step is preserved by the whole fold. -/
theorem foldl_inv {α β : Type _} (P : β → Prop) (f : β → α → β) :
    ∀ (l : List α) (b : β), P b → (∀ b2 a, P b2 → P (f b2 a)) → P (l.foldl f b) := by
  intro l
  induction l with
  | nil => intro b hb _; exact hb
  | cons x xs ih => intro b hb hf; exact ih (f b x) (hf b x hb) hf

theorem head?_append_some {α : Type _} {l : List α} {a : α} (l2 : List α)
    (h : l.head? = some a) : (l ++ l2).head? = some a := by
  cases l with
  | nil => simp at h
  | cons x xs => simpa using h

theorem getLast?_append_singleton {α : Type _} (l : List α) (a : α) :
    (l ++ [a]).getLast? = some a := by
  induction l with
  | nil => rfl
  | cons x xs ih =>
      cases xs with
      | nil => rfl
      | cons y ys => exact ih

/-- Every trial step is a pushTrial of the sampled assignment with a best
score that never regresses. -/
theorem trialStep_shape (ev : Program → List Example → Score) (base : Program)
    (instr : List (List String)) (demos : Option (List (List (List Example))))
    (valset : List Example) (minibatch : Bool) (mbSize fullSteps numTrials : Nat)
    (s : LoopState) (t : Nat) :
    ∃ g2 bp bs sc fe,
      trialStep ev base instr demos valset minibatch mbSize fullSteps numTrials s t
        = pushTrial s g2 bp bs ⟨t, (sampleAssignment s.g (demoDims instr demos)).1, sc, fe⟩
      ∧ s.bestScore ≤ bs := by
  by_cases h : fullEvalAt minibatch fullSteps numTrials t = true
  · simp only [trialStep, if_pos h]
    refine ⟨_, _, _, _, _, rfl, ?_⟩
    split
    · exact le_of_lt (by assumption)
    · exact le_refl _
  · simp only [trialStep, if_neg h]
    exact ⟨_, _, _, _, _, rfl, le_refl _⟩

/-- pushTrial preserves the reconciliation invariant when the best score does
not regress. -/
theorem pushTrial_inv (baseline : Score) (s : LoopState) (g2 : Nat) (bp : Program)
    (bs : Score) (tr : Trial) (h : BSInv baseline s) (hle : s.bestScore ≤ bs) :
    BSInv baseline (pushTrial s g2 bp bs tr) := by
  obtain ⟨h1, h2, h3, h4⟩ := h
  refine ⟨?_, ?_, ?_, le_trans h4 hle⟩
  · show List.Chain' (fun x y => x ≤ y) (s.bestScores ++ [bs])
    rw [List.chain'_append]
    refine ⟨h1, List.chain'_singleton _, ?_⟩
    intro x hx y hy
    rw [h3] at hx
    simp at hx hy
    rw [← hx, ← hy]
    exact hle
  · exact head?_append_some _ h2
  · show (s.bestScores ++ [bs]).getLast? = some bs
    exact getLast?_append_singleton _ _

/-- The trial loop maintains the reconciliation invariant. -/
theorem runLoop_inv (ev : Program → List Example → Score) (base : Program)
    (instr : List (List String)) (demos : Option (List (List (List Example))))
    (valset : List Example) (minibatch : Bool) (mbSize fullSteps numTrials g : Nat)
    (baseline : Score) :
    BSInv baseline
      (runLoop ev base instr demos valset minibatch mbSize fullSteps numTrials g baseline) := by
  unfold runLoop
  apply foldl_inv
  · exact ⟨List.chain'_singleton _, rfl, rfl, le_refl _⟩
  · intro s2 i hs
    obtain ⟨g2, bp, bs, sc, fe, heq, hle⟩ :=
      trialStep_shape ev base instr demos valset minibatch mbSize fullSteps numTrials s2 (i + 1)
    rw [heq]
    exact pushTrial_inv baseline s2 _ _ _ _ hs hle

/-- The search driver's record is score-monotone from its baseline. -/
theorem runTrials_monotone (ev : Program → List Example → Score) (base : Program)
    (instr : List (List String)) (demos : Option (List (List (List Example))))
    (valset : List Example) (numTrials : Nat) (minibatch : Bool) (mbSize fullSteps g : Nat) :
    MonotoneRun (ev base valset)
      (runTrials ev base instr demos valset numTrials minibatch mbSize fullSteps g) := by
  have h := runLoop_inv ev base instr demos valset minibatch mbSize fullSteps numTrials g
    (ev base valset)
  exact h

/-- Absent demo candidates every per-step demo dimension is 1. -/
theorem demoDims_none_snd (instr : List (List String)) :
    ∀ d ∈ demoDims instr none, d.2 = 1 := by
  intro d hd
  rw [show demoDims instr none = instr.map (fun l => (l.length, 1)) from rfl] at hd
  rcases List.mem_map.mp hd with ⟨l, hl, heq⟩
  rw [← heq]

/-- Sampling over unit demo dimensions always picks demo index 0. -/
theorem sampleAssignment_snd_zero :
    ∀ (dims : List (Nat × Nat)) (g : Nat), (∀ d ∈ dims, d.2 = 1) →
      ∀ q ∈ (sampleAssignment g dims).1, q.2 = 0 := by
  intro dims
  induction dims with
  | nil =>
      intro g h q hq
      simp [sampleAssignment] at hq
  | cons d rest ih =>
      intro g h q hq
      have hd : d.2 = 1 := h d (List.mem_cons_self _ _)
      simp only [sampleAssignment] at hq
      rcases List.mem_cons.mp hq with hq | hq
      · rw [hq]
        simp [sampleCat, hd, Nat.mod_one]
      · exact ih _ (fun x hx => h x (List.mem_cons_of_mem _ hx)) q hq

/-- A trial step with no demo candidates keeps every recorded demo index 0. -/
theorem trialStep_trials_zero (ev : Program → List Example → Score) (base : Program)
    (instr : List (List String)) (valset : List Example) (minibatch : Bool)
    (mbSize fullSteps numTrials : Nat) (s : LoopState) (t : Nat) (h : TrialsZero s) :
    TrialsZero (trialStep ev base instr none valset minibatch mbSize fullSteps numTrials s t) := by
  obtain ⟨g2, bp, bs, sc, fe, heq, hle⟩ :=
    trialStep_shape ev base instr none valset minibatch mbSize fullSteps numTrials s t
  rw [heq]
  intro tr htr q hq
  rcases List.mem_append.mp htr with htr | htr
  · exact h tr htr q hq
  · rcases List.mem_singleton.mp htr with rfl
    exact sampleAssignment_snd_zero _ s.g (demoDims_none_snd instr) q hq

/-- The whole loop with no demo candidates keeps every demo index 0. -/
theorem runLoop_trials_zero (ev : Program → List Example → Score) (base : Program)
    (instr : List (List String)) (valset : List Example) (minibatch : Bool)
    (mbSize fullSteps numTrials g : Nat) (baseline : Score) :
    TrialsZero
      (runLoop ev base instr none valset minibatch mbSize fullSteps numTrials g baseline) := by
  unfold runLoop
  apply foldl_inv
  · intro tr htr q hq
    simp [initLoopState] at htr
  · intro s2 i hs
    exact trialStep_trials_zero ev base instr valset minibatch mbSize fullSteps numTrials s2
      (i + 1) hs

/-- The driver with no demo candidates records only demo index 0. -/
theorem runTrials_trials_zero (ev : Program → List Example → Score) (base : Program)
    (instr : List (List String)) (valset : List Example) (numTrials : Nat)
    (minibatch : Bool) (mbSize fullSteps g : Nat) :
    ∀ tr ∈ (runTrials ev base instr none valset numTrials minibatch mbSize fullSteps g).trials,
      ∀ q ∈ tr.assignment, q.2 = 0 := by
  exact runLoop_trials_zero ev base instr valset minibatch mbSize fullSteps numTrials g
    (ev base valset)

/-- Updating reference i leaves every other reference's binding unchanged. -/
theorem alookup_aupdate_ne (i j : Nat) (p : Program) (l : List (Nat × Program))
    (hne : j ≠ i) : alookup j (aupdate i p l) = alookup j l := by
  induction l with
  | nil => rfl
  | cons x rest ih =>
      obtain ⟨k, q⟩ := x
      by_cases hik : i = k
      · subst hik
        have hjk : j ≠ i := hne
        simp [aupdate, alookup, hjk, ih]
      · by_cases hjk : j = k
        · subst hjk
          simp [aupdate, alookup, hik]
        · simp [aupdate, alookup, hik, hjk, ih]

/-- A reference at or above the allocation counter is unbound. -/
theorem alookup_none_of_lt (n : Nat) (l : List (Nat × Program))
    (h : ∀ q ∈ l, q.1 < n) : alookup n l = none := by
  induction l with
  | nil => rfl
  | cons x rest ih =>
      obtain ⟨k, q⟩ := x
      have hk : k < n := h (k, q) (List.mem_cons_self _ _)
      have hne : n ≠ k := by omega
      simp [alookup, hne]
      exact ih (fun r hr => h r (List.mem_cons_of_mem _ hr))

/-- A bound reference lies below the allocation counter. -/
theorem alookup_lt_of_some (i : Nat) (p : Program) (l : List (Nat × Program)) (n : Nat)
    (h : ∀ q ∈ l, q.1 < n) (hl : alookup i l = some p) : i < n := by
  induction l with
  | nil => simp [alookup] at hl
  | cons x rest ih =>
      obtain ⟨k, q⟩ := x
      by_cases hik : i = k
      · subst hik
        exact h (i, q) (List.mem_cons_self _ _)
      · simp [alookup, hik] at hl
        exact ih (fun r hr => h r (List.mem_cons_of_mem _ hr)) hl

/-- In-place configuration of one reference does not touch any other. -/
theorem configureInPlace_lookup_ne (st : PStore) (i j : Nat) (instr : List (List String))
    (demos : Option (List (List (List Example)))) (a : List (Nat × Nat)) (hne : j ≠ i) :
    (configureInPlace st i instr demos a).lookup j = st.lookup j := by
  unfold configureInPlace
  cases h : st.lookup i with
  | none => rfl
  | some p =>
      show PStore.lookup ⟨aupdate i (configureProgram p instr demos a) st.progs, st.nextId⟩ j
        = st.lookup j
      unfold PStore.lookup
      exact alookup_aupdate_ne i j _ st.progs hne

/-- The two branches of getObservationStatus, folded into one expression. -/
theorem getObservationStatus_eq (exc : Option String) :
    getObservationStatus exc = (if exc.isSome then "ERROR" else "DEFAULT", exc) := by
  cases exc <;> rfl

/- ------------------------------------------------------------------ -/
/- Claim theorems.                                                     -/
/- ------------------------------------------------------------------ -/

/-- Claim C9: when the caller passes seed 0 (Python-falsy) or None, compile
seeds the generators from the instance default self.seed instead, so the two
calls are indistinguishable. -/
theorem c9_seed_zero_falls_back (inst : MIPROInstance) (conf : Bool)
    (proposed : List (List String)) (ev : Program → List Example → Score)
    (student : Program) (trainset : List Example) (valset : Option (List Example))
    (numTrials : Nat) (mb ml : Option Nat) (minibatch : Bool)
    (minibatchSize minibatchFullEvalSteps : Nat) (req : Bool) :
    compile inst conf proposed ev student trainset valset numTrials mb ml (some 0) minibatch
        minibatchSize minibatchFullEvalSteps req
      = compile inst conf proposed ev student trainset valset numTrials mb ml none minibatch
          minibatchSize minibatchFullEvalSteps req
    ∧ effectiveSeed (some 0) inst.seed = inst.seed
    ∧ effectiveSeed none inst.seed = inst.seed := by
  refine ⟨?_, by simp [effectiveSeed], rfl⟩
  unfold compile
  rw [show effectiveSeed (some 0) inst.seed = effectiveSeed none inst.seed by
    simp [effectiveSeed]]

/-- Claim C10: passing max_bootstrapped_demos / max_labeled_demos overwrites
the instance's own attributes, the mutation survives the call, and a later
compile on the updated instance with no overrides behaves exactly like the
overridden call. -/
theorem c10_demo_override_persists (inst : MIPROInstance) (conf : Bool)
    (proposed : List (List String)) (ev : Program → List Example → Score)
    (student : Program) (trainset : List Example) (valset : Option (List Example))
    (numTrials : Nat) (b l : Nat) (seed : Option Int) (minibatch : Bool)
    (minibatchSize minibatchFullEvalSteps : Nat) (req : Bool) :
    (compile inst conf proposed ev student trainset valset numTrials (some b) (some l) seed
        minibatch minibatchSize minibatchFullEvalSteps req).inst
      = { inst with max_bootstrapped_demos := b, max_labeled_demos := l }
    ∧ compile { inst with max_bootstrapped_demos := b, max_labeled_demos := l } conf proposed
        ev student trainset valset numTrials none none seed minibatch minibatchSize
        minibatchFullEvalSteps req
      = compile inst conf proposed ev student trainset valset numTrials (some b) (some l) seed
          minibatch minibatchSize minibatchFullEvalSteps req := by
  constructor
  · unfold compile
    cases hds : setAndValidateDatasets trainset valset with
    | error e => rfl
    | ok tv => dsimp only; split_ifs <;> rfl
  · rfl

/-- Claim C1 counterexample: a call with minibatch_size 25 and a valset of 5
examples in which minibatching is disabled raises no error at all — compile
returns normally, so the raise the claim promises for every such call does
not happen. -/
theorem c1_counterexample :
    (compile defaultInst false [["i"]] constEval sampleStudent [1, 2, 3]
        (some [1, 2, 3, 4, 5]) 30 none none none false 25 10 true).result
      = Except.ok sampleStudent := by
  rfl

/-- Claim C1 (amended): when minibatching is enabled and minibatch_size
exceeds the valset size, compile raises the configuration error naming the
valset size, with zero evaluator invocations and no trials run. -/
theorem c1_minibatch_gate (inst : MIPROInstance) (conf : Bool)
    (proposed : List (List String)) (ev : Program → List Example → Score)
    (student : Program) (trainset : List Example) (valset : Option (List Example))
    (numTrials : Nat) (mb ml : Option Nat) (seed : Option Int)
    (minibatchSize minibatchFullEvalSteps : Nat) (req : Bool) (t2 v2 : List Example)
    (hds : setAndValidateDatasets trainset valset = Except.ok (t2, v2))
    (hsz : v2.length < minibatchSize) :
    (compile inst conf proposed ev student trainset valset numTrials mb ml seed true
        minibatchSize minibatchFullEvalSteps req).result
      = Except.error (minibatchSizeError v2.length)
    ∧ (compile inst conf proposed ev student trainset valset numTrials mb ml seed true
        minibatchSize minibatchFullEvalSteps req).evalCount = 0
    ∧ (compile inst conf proposed ev student trainset valset numTrials mb ml seed true
        minibatchSize minibatchFullEvalSteps req).driver = none := by
  simp [compile, hds, hsz]

/-- Claim C1 witness for the amended statement, at a 5-example valset and
minibatch size 25. -/
theorem c1_minibatch_gate_witness :
    setAndValidateDatasets [1, 2, 3] (some [1, 2, 3, 4, 5])
        = Except.ok ([1, 2, 3], [1, 2, 3, 4, 5])
    ∧ ([1, 2, 3, 4, 5] : List Example).length < 25
    ∧ (compile defaultInst true [["i"]] constEval sampleStudent [1, 2, 3]
        (some [1, 2, 3, 4, 5]) 30 none none none true 25 10 true).result
      = Except.error (minibatchSizeError 5) := by
  refine ⟨rfl, by decide, ?_⟩
  exact (c1_minibatch_gate defaultInst true [["i"]] constEval sampleStudent [1, 2, 3]
    (some [1, 2, 3, 4, 5]) 30 none none none 25 10 true [1, 2, 3] [1, 2, 3, 4, 5]
    rfl (by decide)).1

/-- Claim C2 counterexample: with permission required and a declining hook,
a call whose minibatch size exceeds the valset raises the configuration
error instead of returning the student unchanged. -/
theorem c2_counterexample :
    (compile defaultInst false [["i"]] constEval sampleStudent [1, 2, 3]
        (some [1, 2, 3, 4, 5]) 30 none none none true 25 10 true).result
      = Except.error (minibatchSizeError 5) := by
  rfl

/-- Claim C2 (amended): provided dataset setup succeeds and the
minibatch-size check passes, a declined confirmation makes compile return
the input student unchanged, with no error, zero evaluator invocations and
no driver run. -/
theorem c2_declined_returns_student (inst : MIPROInstance)
    (proposed : List (List String)) (ev : Program → List Example → Score)
    (student : Program) (trainset : List Example) (valset : Option (List Example))
    (numTrials : Nat) (mb ml : Option Nat) (seed : Option Int) (minibatch : Bool)
    (minibatchSize minibatchFullEvalSteps : Nat) (t2 v2 : List Example)
    (hds : setAndValidateDatasets trainset valset = Except.ok (t2, v2))
    (hmb : ¬ (minibatch = true ∧ v2.length < minibatchSize)) :
    (compile inst false proposed ev student trainset valset numTrials mb ml seed minibatch
        minibatchSize minibatchFullEvalSteps true).result = Except.ok student
    ∧ (compile inst false proposed ev student trainset valset numTrials mb ml seed minibatch
        minibatchSize minibatchFullEvalSteps true).evalCount = 0
    ∧ (compile inst false proposed ev student trainset valset numTrials mb ml seed minibatch
        minibatchSize minibatchFullEvalSteps true).driver = none
    ∧ (compile inst false proposed ev student trainset valset numTrials mb ml seed minibatch
        minibatchSize minibatchFullEvalSteps true).demosToOptimizer = none := by
  simp [compile, hds, hmb]

/-- Claim C2 witness for the amended statement. -/
theorem c2_declined_returns_student_witness :
    setAndValidateDatasets [1, 2, 3] (some [1, 2, 3, 4, 5])
        = Except.ok ([1, 2, 3], [1, 2, 3, 4, 5])
    ∧ ¬ (false = true ∧ ([1, 2, 3, 4, 5] : List Example).length < 25)
    ∧ (compile defaultInst false [["i"]] constEval sampleStudent [1, 2, 3]
        (some [1, 2, 3, 4, 5]) 30 none none none false 25 10 true).result
      = Except.ok sampleStudent := by
  refine ⟨rfl, by simp, ?_⟩
  exact (c2_declined_returns_student defaultInst [["i"]] constEval sampleStudent [1, 2, 3]
    (some [1, 2, 3, 4, 5]) 30 none none none false 25 10 [1, 2, 3] [1, 2, 3, 4, 5]
    rfl (by simp)).1

/-- Claim C3: when both demo limits are zero after the per-call overrides,
the demo-candidate pool passed to the prompt-parameter optimization step is
None and every sampled assignment's demo-set index is 0 — the demo dimension
of the search collapses to size 1. -/
theorem c3_zeroshot_demo_collapse (inst : MIPROInstance) (conf : Bool)
    (proposed : List (List String)) (ev : Program → List Example → Score)
    (student : Program) (trainset : List Example) (valset : Option (List Example))
    (numTrials : Nat) (mb ml : Option Nat) (seed : Option Int) (minibatch : Bool)
    (minibatchSize minibatchFullEvalSteps : Nat) (req : Bool) (t2 v2 : List Example)
    (hds : setAndValidateDatasets trainset valset = Except.ok (t2, v2))
    (hzb : mb.getD inst.max_bootstrapped_demos = 0)
    (hzl : ml.getD inst.max_labeled_demos = 0)
    (hmb : ¬ (minibatch = true ∧ v2.length < minibatchSize))
    (hgo : ¬ (req = true ∧ conf = false)) :
    (compile inst conf proposed ev student trainset valset numTrials mb ml seed minibatch
        minibatchSize minibatchFullEvalSteps req).demosToOptimizer = some none
    ∧ ∀ dr, (compile inst conf proposed ev student trainset valset numTrials mb ml seed
          minibatch minibatchSize minibatchFullEvalSteps req).driver = some dr →
        ∀ tr ∈ dr.trials, ∀ q ∈ tr.assignment, q.2 = 0 := by
  constructor
  · simp [compile, hds, hmb, hgo]
  · intro dr hdr
    simp [compile, hds, hmb, hgo] at hdr
    rw [← hdr]
    exact runTrials_trials_zero ev student proposed v2 numTrials minibatch minibatchSize
      minibatchFullEvalSteps (setRandomSeeds (effectiveSeed seed inst.seed))

/-- Claim C3 witness: a zero-shot call whose demo pool is None. -/
theorem c3_zeroshot_demo_collapse_witness :
    setAndValidateDatasets [1, 2] (some [3, 4]) = Except.ok ([1, 2], [3, 4])
    ∧ (some 0 : Option Nat).getD defaultInst.max_bootstrapped_demos = 0
    ∧ (compile defaultInst true [["a", "b"]] constEval sampleStudent [1, 2] (some [3, 4]) 2
        (some 0) (some 0) none false 1 2 false).demosToOptimizer = some none := by
  refine ⟨rfl, rfl, ?_⟩
  exact (c3_zeroshot_demo_collapse defaultInst true [["a", "b"]] constEval sampleStudent
    [1, 2] (some [3, 4]) 2 (some 0) (some 0) none false 1 2 false [1, 2] [3, 4]
    rfl rfl rfl (by simp) (by simp)).1

/-- Claim C4: every completed compile either returns the original student
program (decline path) or the driver's Best Program, whose recorded best
full-set scores are non-decreasing in trial index, start at the input
program's baseline score and end at the returned best score, which is at
least the baseline. -/
theorem c4_best_monotone (inst : MIPROInstance) (conf : Bool)
    (proposed : List (List String)) (ev : Program → List Example → Score)
    (student : Program) (trainset : List Example) (valset : Option (List Example))
    (numTrials : Nat) (mb ml : Option Nat) (seed : Option Int) (minibatch : Bool)
    (minibatchSize minibatchFullEvalSteps : Nat) (req : Bool) (p : Program)
    (t2 v2 : List Example)
    (hds : setAndValidateDatasets trainset valset = Except.ok (t2, v2))
    (hok : (compile inst conf proposed ev student trainset valset numTrials mb ml seed
        minibatch minibatchSize minibatchFullEvalSteps req).result = Except.ok p) :
    ((compile inst conf proposed ev student trainset valset numTrials mb ml seed minibatch
        minibatchSize minibatchFullEvalSteps req).driver = none ∧ p = student)
    ∨ ∃ dr, (compile inst conf proposed ev student trainset valset numTrials mb ml seed
          minibatch minibatchSize minibatchFullEvalSteps req).driver = some dr
        ∧ p = dr.best ∧ MonotoneRun (ev student v2) dr := by
  by_cases hmb : minibatch = true ∧ v2.length < minibatchSize
  · exfalso
    simp [compile, hds, hmb] at hok
  · by_cases hgo : req = true ∧ conf = false
    · left
      constructor
      · simp [compile, hds, hmb, hgo]
      · simp [compile, hds, hmb, hgo] at hok
        exact hok.symm
    · right
      have hdrv : (compile inst conf proposed ev student trainset valset numTrials mb ml seed
          minibatch minibatchSize minibatchFullEvalSteps req).driver
          = some (runTrials ev student proposed
              (if (mb.getD inst.max_bootstrapped_demos) = 0
                  ∧ (ml.getD inst.max_labeled_demos) = 0 then none else none)
              v2 numTrials minibatch minibatchSize minibatchFullEvalSteps
              (setRandomSeeds (effectiveSeed seed inst.seed))) := by
        simp [compile, hds, hmb, hgo]
      have hres : (compile inst conf proposed ev student trainset valset numTrials mb ml seed
          minibatch minibatchSize minibatchFullEvalSteps req).result
          = Except.ok (runTrials ev student proposed
              (if (mb.getD inst.max_bootstrapped_demos) = 0
                  ∧ (ml.getD inst.max_labeled_demos) = 0 then none else none)
              v2 numTrials minibatch minibatchSize minibatchFullEvalSteps
              (setRandomSeeds (effectiveSeed seed inst.seed))).best := by
        simp [compile, hds, hmb, hgo]
      rw [hres] at hok
      refine ⟨_, hdrv, ?_, runTrials_monotone ev student proposed _ v2 numTrials minibatch
        minibatchSize minibatchFullEvalSteps _⟩
      injection hok with h
      exact h.symm

/-- Claim C4 witness: a zero-trial run returning the baseline program. -/
theorem c4_best_monotone_witness :
    setAndValidateDatasets [1, 2, 3] (some [4, 5]) = Except.ok ([1, 2, 3], [4, 5])
    ∧ (compile defaultInst true [["a"]] constEval sampleStudent [1, 2, 3] (some [4, 5]) 0
        none none none false 5 10 false).result = Except.ok sampleStudent
    ∧ (((compile defaultInst true [["a"]] constEval sampleStudent [1, 2, 3] (some [4, 5]) 0
          none none none false 5 10 false).driver = none ∧ sampleStudent = sampleStudent)
       ∨ ∃ dr, (compile defaultInst true [["a"]] constEval sampleStudent [1, 2, 3]
            (some [4, 5]) 0 none none none false 5 10 false).driver = some dr
          ∧ sampleStudent = dr.best ∧ MonotoneRun (constEval sampleStudent [4, 5]) dr) :=
  ⟨rfl, rfl, c4_best_monotone defaultInst true [["a"]] constEval sampleStudent [1, 2, 3]
    (some [4, 5]) 0 none none none false 5 10 false sampleStudent [1, 2, 3] [4, 5] rfl rfl⟩

/-- Claim C5: two compile runs with the same seed, the same proposer outputs
and the same evaluator behavior sample the same sequence of Assignments and
return the same result. -/
theorem c5_determinism (inst : MIPROInstance) (conf : Bool)
    (prop1 prop2 : List (List String)) (ev1 ev2 : Program → List Example → Score)
    (student : Program) (trainset : List Example) (valset : Option (List Example))
    (numTrials : Nat) (mb ml : Option Nat) (s1 s2 : Option Int) (minibatch : Bool)
    (minibatchSize minibatchFullEvalSteps : Nat) (req : Bool)
    (hs : s1 = s2) (hp : prop1 = prop2) (he : ev1 = ev2) :
    ((compile inst conf prop1 ev1 student trainset valset numTrials mb ml s1 minibatch
        minibatchSize minibatchFullEvalSteps req).driver).map
        (fun dr => dr.trials.map (fun tr => tr.assignment))
      = ((compile inst conf prop2 ev2 student trainset valset numTrials mb ml s2 minibatch
          minibatchSize minibatchFullEvalSteps req).driver).map
          (fun dr => dr.trials.map (fun tr => tr.assignment))
    ∧ (compile inst conf prop1 ev1 student trainset valset numTrials mb ml s1 minibatch
        minibatchSize minibatchFullEvalSteps req).result
      = (compile inst conf prop2 ev2 student trainset valset numTrials mb ml s2 minibatch
          minibatchSize minibatchFullEvalSteps req).result := by
  subst hs
  subst hp
  subst he
  exact ⟨rfl, rfl⟩

/-- Claim C5 witness: the two-run equality at one concrete configuration. -/
theorem c5_determinism_witness :
    (some 7 : Option Int) = some 7
    ∧ ((compile defaultInst true [["i"]] constEval sampleStudent [1, 2] (some [3, 4]) 2
        none none (some 7) false 1 2 false).driver).map
        (fun dr => dr.trials.map (fun tr => tr.assignment))
      = ((compile defaultInst true [["i"]] constEval sampleStudent [1, 2] (some [3, 4]) 2
          none none (some 7) false 1 2 false).driver).map
          (fun dr => dr.trials.map (fun tr => tr.assignment)) :=
  ⟨rfl, (c5_determinism defaultInst true [["i"]] [["i"]] constEval constEval sampleStudent
    [1, 2] (some [3, 4]) 2 none none (some 7) (some 7) false 1 2 false rfl rfl rfl).1⟩

/-- Claim C6: compile never mutates the input student program — it deep
copies the student and configures only the copy, so the student's binding in
the heap is identical before and after. -/
theorem c6_no_student_mutation (st : PStore) (studentId : Nat)
    (instr : List (List String)) (demos : Option (List (List (List Example))))
    (assignments : List (List (Nat × Nat))) (h : st.WF) :
    ((compileOnStore st studentId instr demos assignments).1).lookup studentId
      = st.lookup studentId := by
  unfold compileOnStore deepcopy
  cases hl : st.lookup studentId with
  | none =>
      have hall : assignments.foldl (fun s a => configureInPlace s st.nextId instr demos a)
          st = st := by
        apply foldl_inv (fun s : PStore => s = st)
        · rfl
        · intro s2 a hs2
          subst hs2
          unfold configureInPlace
          rw [show s2.lookup s2.nextId = none from alookup_none_of_lt _ _ h]
      show (assignments.foldl (fun s a => configureInPlace s st.nextId instr demos a)
          st).lookup studentId = none
      rw [hall]
      exact hl
  | some p =>
      have hlt : studentId < st.nextId := alookup_lt_of_some studentId p st.progs st.nextId h hl
      have hne : studentId ≠ st.nextId := by omega
      have hinit : (PStore.mk ((st.nextId, p) :: st.progs) (st.nextId + 1)).lookup studentId
          = some p := by
        show alookup studentId ((st.nextId, p) :: st.progs) = some p
        rw [show alookup studentId ((st.nextId, p) :: st.progs)
            = alookup studentId st.progs by simp [alookup, hne]]
        exact hl
      have hinv := foldl_inv (fun s : PStore => s.lookup studentId = some p)
        (fun s a => configureInPlace s st.nextId instr demos a) assignments
        ⟨(st.nextId, p) :: st.progs, st.nextId + 1⟩ hinit
        (fun s2 a hs2 => by
          show (configureInPlace s2 st.nextId instr demos a).lookup studentId = some p
          rw [configureInPlace_lookup_ne s2 st.nextId studentId instr demos a hne]
          exact hs2)
      show (assignments.foldl (fun s a => configureInPlace s st.nextId instr demos a)
          (PStore.mk ((st.nextId, p) :: st.progs) (st.nextId + 1))).lookup studentId
        = some p
      exact hinv

/-- Claim C6 witness: the sample heap is well formed and the student binding
survives a run that configures the copy. -/
theorem c6_no_student_mutation_witness :
    sampleStore.WF
    ∧ ((compileOnStore sampleStore 0 [["i0"]] none [[(0, 0)]]).1).lookup 0
        = sampleStore.lookup 0 := by
  have hwf : sampleStore.WF := by
    intro q hq
    simp [sampleStore] at hq
    rw [hq]
    decide
  exact ⟨hwf, c6_no_student_mutation sampleStore 0 [["i0"]] none [[(0, 0)]] hwf⟩

/-- Claim C7 counterexample: a root module end with an exception updates the
trace with the output only — no observation is ended and no ERROR level or
status message is recorded, although an exception was passed. -/
theorem c7_counterexample :
    onModuleEnd (onModuleStart ⟨[], []⟩ none "c1" "Top" "x").1 "c1"
        (ModuleOutput.plain none) (some "boom")
      = some (⟨[], []⟩, [Action.updateTrace "c1" none]) := by
  rfl

/-- Claim C7 (amended): for every LM end event and every module end event
whose call id has a recorded observation, the observation is ended with the
outputs, level ERROR and status message equal to the exception text exactly
when an exception was passed, and level DEFAULT with no status message
otherwise; a root module end event instead updates its trace with the
outputs only, recording no level or status message. -/
theorem c7_completion_status (s : CBState) (callId : String) (mOut : ModuleOutput)
    (out exc : Option String) :
    (∀ o, slookup callId s.observations = some o →
        lastAction (onModuleEnd s callId mOut exc)
          = some (Action.endObs o.id (unwrapOutput mOut)
              (if exc.isSome then "ERROR" else "DEFAULT") exc)
      ∧ lastAction (onLMEnd s callId out exc)
          = some (Action.endObs o.id out (if exc.isSome then "ERROR" else "DEFAULT") exc))
    ∧ (slookup callId s.observations = none →
        ∀ t, slookup callId s.traces = some t →
        onModuleEnd s callId mOut exc
          = some (⟨removeKey callId s.traces, s.observations⟩,
              [Action.updateTrace callId (unwrapOutput mOut)])) := by
  constructor
  · intro o ho
    constructor
    · simp [onModuleEnd, ho, lastAction, getObservationStatus_eq]
    · cases ht : slookup callId s.traces with
      | none => simp [onLMEnd, ho, ht, lastAction, getObservationStatus_eq]
      | some tr =>
          simp [onLMEnd, ho, ht, lastAction, getObservationStatus_eq,
            getLast?_append_singleton]
  · intro ho t ht
    simp [onModuleEnd, ho, ht]

/-- Claim C7 witness: an LM end with an exception, on a state holding a
nested observation, ends it with level ERROR and the exception text. -/
theorem c7_completion_status_witness :
    slookup "c1" cbSample.observations
        = some ⟨"span-c1", "Inner", Parent.trace "root", false⟩
    ∧ lastAction (onLMEnd cbSample "c1" (some "out") (some "boom"))
      = some (Action.endObs "span-c1" (some "out") "ERROR" (some "boom")) := by
  refine ⟨rfl, ?_⟩
  exact ((c7_completion_status cbSample "c1" (ModuleOutput.plain none) (some "out")
    (some "boom")).1 ⟨"span-c1", "Inner", Parent.trace "root", false⟩ rfl).2

/-- Claim C8: both start handlers resolve the parent from the ambient call
id — when it maps to no recorded trace or observation a new root trace keyed
by the caller-supplied call id is created (the LM handler also nests its
generation under it); otherwise the nested span or generation is created
under the parent observation when one exists, preferring it over the parent
trace. -/
theorem c8_parent_resolution (s : CBState) (ambient : Option String)
    (callId name input : String) :
    ((ambient.bind (fun a => slookup a s.observations) = none →
      ambient.bind (fun a => slookup a s.traces) = none →
      (onModuleStart s ambient callId name input).2 = [Action.createTrace callId name]
      ∧ slookup callId (onModuleStart s ambient callId name input).1.traces
          = some ⟨callId, name, input⟩
      ∧ (onLMStart s ambient callId name input).2
          = [Action.createTrace callId name,
             Action.createGeneration (Parent.trace callId) ("generation-" ++ callId)]
      ∧ slookup callId (onLMStart s ambient callId name input).1.traces
          = some ⟨callId, name, input⟩))
    ∧ (∀ o, ambient.bind (fun a => slookup a s.observations) = some o →
        (onModuleStart s ambient callId name input).2
          = [Action.createSpan (Parent.obs o.id) ("span-" ++ callId)]
        ∧ (onLMStart s ambient callId name input).2
          = [Action.createGeneration (Parent.obs o.id) ("generation-" ++ callId)])
    ∧ (ambient.bind (fun a => slookup a s.observations) = none →
        ∀ t, ambient.bind (fun a => slookup a s.traces) = some t →
        (onModuleStart s ambient callId name input).2
          = [Action.createSpan (Parent.trace t.id) ("span-" ++ callId)]
        ∧ (onLMStart s ambient callId name input).2
          = [Action.createGeneration (Parent.trace t.id) ("generation-" ++ callId)]) := by
  refine ⟨?_, ?_, ?_⟩
  · intro ho ht
    simp [onModuleStart, onLMStart, resolveParent, ho, ht, slookup]
  · intro o ho
    simp [onModuleStart, onLMStart, resolveParent, ho]
  · intro ho t ht
    simp [onModuleStart, onLMStart, resolveParent, ho, ht]

/-- Claim C8 witness: with the ambient id bound to a root trace and no
observation, a module start creates a span under that trace. -/
theorem c8_parent_resolution_witness :
    slookup "root" cbSample.observations = none
    ∧ slookup "root" cbSample.traces = some ⟨"root", "Top", "x"⟩
    ∧ (onModuleStart cbSample (some "root") "c2" "Mod" "y").2
        = [Action.createSpan (Parent.trace "root") ("span-" ++ "c2")] := by
  refine ⟨rfl, rfl, ?_⟩
  exact ((c8_parent_resolution cbSample (some "root") "c2" "Mod" "y").2.2 rfl
    ⟨"root", "Top", "x"⟩ rfl).1

end DSpy
